import Mathlib

/-
Verification of the SRF Super League crawler (src/crawler.js).

The development shallowly embeds the crawler's matching engine: team-keyword
lookup, clip validation (team mention, date window, minimum duration, title
blacklist), clip classification (Sport-Clip standalone vs. Super League
broadcast segment), the per-fixture query loop, and the schedule gate
(getMatchesToSearch).  JavaScript strings are Lean strings; `toLowerCase`
is `Char.toLower` mapped over the characters; `String.prototype.includes`
is infix search on the character list; absent (undefined) record fields
are `Option` fields; a
timestamp already truncated to day precision is a `DayDate` carrying its
calendar-day index and the discarded time of day.  The remote search call
is a pure parameter: each query is mapped to a `SearchOutcome`, either a
transport failure (the `fetch` or body parse throws) or an HTTP response
with an ok flag and an optional result list.
-/

namespace Crawler

/-- JavaScript `toLowerCase`: `Char.toLower` mapped over the character
list (`String.toLower` itself is not kernel-reducible). -/
def jsToLower (s : String) : String := String.mk (s.data.map Char.toLower)

/-- Contiguous-substring test on character lists. -/
def listIsInfixOf : List Char → List Char → Bool
  | needle, [] => needle.isEmpty
  | needle, c :: rest => needle.isPrefixOf (c :: rest) || listIsInfixOf needle rest

/-- JavaScript `hay.includes(needle)` on the underlying character lists. -/
def strIncludes (hay needle : String) : Bool :=
  listIsInfixOf needle.toList hay.toList

/-- A date value truncated to calendar-day precision, as produced by
`new Date(s)` followed by `setHours(0,0,0,0)`: `day` is the calendar-day
index, `timeOfDay` the part of the original timestamp that the truncation
discards. -/
structure DayDate where
  day : Int
  timeOfDay : Nat
deriving DecidableEq, Repr

/-- `show` object of a search result (`video.show`). -/
structure ShowInfo where
  title : Option String
deriving DecidableEq, Repr

/-- A raw search result record (`RawClip`); all fields the API may omit are
optional. -/
structure Video where
  title : Option String
  description : Option String
  showInfo : Option ShowInfo
  date : Option DayDate
  validFrom : Option DayDate
  publishedDate : Option DayDate
  duration : Option Nat
  urn : String
deriving DecidableEq, Repr

/-- Per-team configuration entry (`teamsData.teams[name]`). -/
structure TeamInfo where
  keywords : Option (List String)
deriving DecidableEq, Repr

/-- Derby-override entry (`teamsData.match_combinations[key]`). -/
structure ComboInfo where
  keywords : Option (List String)
deriving DecidableEq, Repr

/-- The teams.json content: team table plus optional derby combinations,
modelled as association lists (JS object key lookup). -/
structure TeamsData where
  teams : List (String × TeamInfo)
  match_combinations : Option (List (String × ComboInfo))
deriving DecidableEq, Repr

/-- JS object property lookup on an association list. -/
def alookup {α : Type} (l : List (String × α)) (k : String) : Option α :=
  (l.find? (fun p => p.1 == k)).map (fun p => p.2)

/-- `findTeamInText(text, teamName, teamsData)`: case-insensitive substring
hit of any configured keyword of the team, or of the team name itself. -/
def findTeamInText (text teamName : String) (teamsData : TeamsData) : Bool :=
  let textLower := jsToLower text
  let kwHit :=
    match alookup teamsData.teams teamName with
    | some teamInfo =>
      match teamInfo.keywords with
      | some kws => kws.any (fun kw => strIncludes textLower (jsToLower kw))
      | none => false
    | none => false
  kwHit || strIncludes textLower (jsToLower teamName)

/-- `video.date || video.validFrom || video.publishedDate`: first present
date field wins. -/
def clipDate (video : Video) : Option DayDate :=
  match video.date with
  | some d => some d
  | none =>
    match video.validFrom with
    | some d => some d
    | none => video.publishedDate

/-- `isVideoDateValid(video, matchDate)`: both dates truncated to the day,
accept iff the difference in days is between 0 and 2 inclusive; with no
date field present, reject. -/
def isVideoDateValid (video : Video) (matchDate : DayDate) : Bool :=
  match clipDate video with
  | none => false
  | some videoDate =>
    let diffDays : Int := videoDate.day - matchDate.day
    decide (0 ≤ diffDays) && decide (diffDays ≤ 2)

/-- `MIN_DURATION_MS = 90 * 1000`. -/
def MIN_DURATION_MS : Nat := 90 * 1000

/-- `isVideoLongEnough(video)`: `(video.duration || 0) >= MIN_DURATION_MS`. -/
def isVideoLongEnough (video : Video) : Bool :=
  let duration := video.duration.getD 0
  decide (MIN_DURATION_MS ≤ duration)

/-- `TITLE_BLACKLIST` from src/crawler.js line 102. -/
def TITLE_BLACKLIST : List String :=
  ["trainer", "coach", "interview", "pressekonferenz", "vorstellung",
   "bilanz", "analyse", "vorschau", "reaktion", "stimmen"]

/-- `isNotBlacklisted(video)`: false iff the lowercased title contains a
blacklisted word.  (Defined in src/crawler.js but never invoked by
`crawl`.) -/
def isNotBlacklisted (video : Video) : Bool :=
  let title := jsToLower (video.title.getD "")
  !(TITLE_BLACKLIST.any (fun word => strIncludes title word))

/-- `getAllKeywords(teamName, teamsData)`: the configured keyword list if
nonempty, else the team name itself. -/
def getAllKeywords (teamName : String) (teamsData : TeamsData) : List String :=
  match alookup teamsData.teams teamName with
  | some teamInfo =>
    match teamInfo.keywords with
    | some kws => if kws.length > 0 then kws else [teamName]
    | none => [teamName]
  | none => [teamName]

/-- `getDerbyKeywords(homeTeam, awayTeam, teamsData)`: the combination is
looked up under "home vs away" and then "away vs home". -/
def getDerbyKeywords (homeTeam awayTeam : String) (teamsData : TeamsData) : List String :=
  match teamsData.match_combinations with
  | none => []
  | some mc =>
    let key1 := homeTeam ++ " vs " ++ awayTeam
    let key2 := awayTeam ++ " vs " ++ homeTeam
    let combo :=
      match alookup mc key1 with
      | some c => some c
      | none => alookup mc key2
    match combo with
    | some c => c.keywords.getD []
    | none => []

/-- One scheduled fixture (an entry of `matchday.matches` in spielplan.json):
home/away identifiers, the match date (already at day precision), and an
optional search-start timestamp in milliseconds. -/
structure MatchEntry where
  home : String
  away : String
  date : DayDate
  searchStart : Option Int
deriving DecidableEq, Repr

/-- One matchday of the schedule; `matchesList` models the `matches`
field of spielplan.json (`matches` is reserved in Lean). -/
structure Matchday where
  matchday : Int
  matchesList : List MatchEntry
deriving DecidableEq, Repr

/-- The schedule (spielplan.json). -/
structure Spielplan where
  matchdays : List Matchday
deriving DecidableEq, Repr

/-- A persisted resolved link (`links.matches[matchKey]`). -/
structure ResolvedLink where
  url : String
  foundAt : String
  title : Option String
  urn : String
  type : String
deriving DecidableEq, Repr

/-- The persisted link store (links.json); `matchesList` models its
`matches` mapping. -/
structure LinksStore where
  lastUpdated : String
  matchesList : List (String × ResolvedLink)
deriving DecidableEq, Repr

/-- The match key: `` `${matchday.matchday}_${match.home} - ${match.away}` ``. -/
def matchKeyOf (mdNum : Int) (m : MatchEntry) : String :=
  toString mdNum ++ "_" ++ m.home ++ " - " ++ m.away

/-- Truth of `links.matches[matchKey] && links.matches[matchKey].url`:
an entry exists and its url is a nonempty string. -/
def linkResolved (links : LinksStore) (key : String) : Bool :=
  match alookup links.matchesList key with
  | some link => !(link.url == "")
  | none => false

/-- A fixture selected for searching: `{ matchday, ...match, matchKey }`. -/
structure MatchToSearch where
  matchday : Int
  home : String
  away : String
  date : DayDate
  searchStart : Option Int
  matchKey : String
deriving DecidableEq, Repr

/-- The record pushed onto `matchesToSearch`. -/
def mkMatchToSearch (mdNum : Int) (m : MatchEntry) : MatchToSearch :=
  { matchday := mdNum, home := m.home, away := m.away, date := m.date,
    searchStart := m.searchStart, matchKey := matchKeyOf mdNum m }

/-- `MAX_SEARCH_HOURS = 6`. -/
def MAX_SEARCH_HOURS : Int := 6

/-- The per-match body of `getMatchesToSearch`: skip if already resolved;
in test mode select unconditionally; otherwise select iff a searchStart
exists and `now` lies in `[searchStart, searchStart + 6h]`. -/
def selectMatch (links : LinksStore) (testMatchday : Option Int) (now : Int)
    (mdNum : Int) (m : MatchEntry) : Option MatchToSearch :=
  let matchKey := matchKeyOf mdNum m
  if linkResolved links matchKey then none
  else if testMatchday.isSome then some (mkMatchToSearch mdNum m)
  else
    match m.searchStart with
    | none => none
    | some searchTime =>
      let searchEndTime := searchTime + MAX_SEARCH_HOURS * 60 * 60 * 1000
      if searchTime ≤ now && now ≤ searchEndTime then some (mkMatchToSearch mdNum m)
      else none

/-- `getMatchesToSearch(spielplan, links, testMatchday)` at time `now`:
matchdays other than the test matchday are skipped entirely in test mode;
within a matchday each match goes through `selectMatch`. -/
def getMatchesToSearch (spielplan : Spielplan) (links : LinksStore)
    (testMatchday : Option Int) (now : Int) : List MatchToSearch :=
  spielplan.matchdays.flatMap (fun md =>
    match testMatchday with
    | some t =>
      if md.matchday == t then
        md.matchesList.filterMap (selectMatch links testMatchday now md.matchday)
      else []
    | none => md.matchesList.filterMap (selectMatch links none now md.matchday))

/-- `buildVideoUrl(urn)`. -/
def buildVideoUrl (urn : String) : String :=
  "https://www.srf.ch/play/tv/-/video/-?urn=" ++ urn

/-- Outcome of one remote search call: either the `fetch` (or the body
parse) throws, or an HTTP response arrives carrying an ok flag and the
optional `searchResultMediaList` field. -/
inductive SearchOutcome where
  | transportFailure : SearchOutcome
  | response (ok : Bool) (body : Option (List Video)) : SearchOutcome
deriving DecidableEq

/-- `searchVideos(query)` given the outcome of its remote call: a thrown
transport error propagates (`Except.error`); a non-ok response returns the
empty list; otherwise `data.searchResultMediaList || []`. -/
def searchVideos : SearchOutcome → Except Unit (List Video)
  | SearchOutcome.transportFailure => Except.error ()
  | SearchOutcome.response ok body =>
    if ok then Except.ok (body.getD []) else Except.ok []

/-- `video.show?.title || ''`. -/
def showTitleOf (video : Video) : String :=
  (video.showInfo.bind ShowInfo.title).getD ""

/-- `` `${title} ${description} ${showTitle}` `` with the empty-string
defaults applied in the crawl loop. -/
def fullText (video : Video) : String :=
  (video.title.getD "") ++ " " ++ (video.description.getD "") ++ " " ++ showTitleOf video

/-- The acceptance condition of the crawl loop (src/crawler.js line 298):
`(homeFound || awayFound) && dateValid && longEnough`.  Note that
`isNotBlacklisted` is absent here, exactly as in the source. -/
def videoAccepted (video : Video) (m : MatchToSearch) (teams : TeamsData) : Bool :=
  let text := fullText video
  let homeFound := findTeamInText text m.home teams
  let awayFound := findTeamInText text m.away teams
  let dateValid := isVideoDateValid video m.date
  let longEnough := isVideoLongEnough video
  (homeFound || awayFound) && dateValid && longEnough

/-- The scan over one query's result list, carrying `standaloneMatch` and
`sendungMatch`; mirrors the loop body of src/crawler.js lines 282-310,
including the `if (standaloneMatch) break` at the end of each iteration. -/
def scanResults (m : MatchToSearch) (teams : TeamsData) :
    List Video → Option Video → Option Video → Option Video × Option Video
  | [], standaloneMatch, sendungMatch => (standaloneMatch, sendungMatch)
  | video :: rest, standaloneMatch, sendungMatch =>
    let showTitle := showTitleOf video
    let st :=
      if videoAccepted video m teams then
        if showTitle == "Sport-Clip" && standaloneMatch.isNone then
          (some video, sendungMatch)
        else if strIncludes showTitle "Super League" && sendungMatch.isNone then
          (standaloneMatch, some video)
        else (standaloneMatch, sendungMatch)
      else (standaloneMatch, sendungMatch)
    if st.1.isSome then st else scanResults m teams rest st.1 st.2

/-- The selection made after scanning one query's results (lines 312-318):
a standalone match wins with type `Standalone`, else a remembered
`sendungMatch` wins with type `Sendung`, else nothing. -/
def queryOutcome (m : MatchToSearch) (teams : TeamsData)
    (results : List Video) : Option (Video × String) :=
  match scanResults m teams results none none with
  | (some v, _) => some (v, "Standalone")
  | (none, some v) => some (v, "Sendung")
  | (none, none) => none

/-- First-occurrence deduplication, the behaviour of
`[...new Set(list)]` in JavaScript. -/
def jsSetDedup (l : List String) : List String :=
  l.foldl (fun acc x => if acc.contains x then acc else acc ++ [x]) []

/-- `combinedSearches` as built in `crawl` (lines 249-265): the pair of
primary keywords, then every derby keyword unconditionally, then the
deduplicated union of home and away keywords, each skipped when already
present in the growing list. -/
def combinedSearches (home away : String) (teams : TeamsData) : List String :=
  let homeKeywords := getAllKeywords home teams
  let awayKeywords := getAllKeywords away teams
  let derbyKeywords := getDerbyKeywords home away teams
  let base := (homeKeywords.headD "" ++ " " ++ awayKeywords.headD "") :: derbyKeywords
  let allKeywords := jsSetDedup (homeKeywords ++ awayKeywords)
  allKeywords.foldl (fun acc kw => if acc.contains kw then acc else acc ++ [kw]) base

/-- The per-fixture query loop (lines 269-322): queries are tried in order;
a thrown search error propagates; the first query with a non-`none`
outcome stops the loop.  Returns the winner (with its type string) and the
list of queries actually issued. -/
def resolveQueries (m : MatchToSearch) (teams : TeamsData)
    (sf : String → SearchOutcome) :
    List String → Except Unit (Option (Video × String) × List String)
  | [] => Except.ok (none, [])
  | q :: rest =>
    match searchVideos (sf q) with
    | Except.error e => Except.error e
    | Except.ok results =>
      match queryOutcome m teams results with
      | some r => Except.ok (some r, [q])
      | none =>
        match resolveQueries m teams sf rest with
        | Except.error e => Except.error e
        | Except.ok (res, issued) => Except.ok (res, q :: issued)

/-- Resolution of one fixture: the query loop run on `combinedSearches`. -/
def resolveFixture (m : MatchToSearch) (teams : TeamsData)
    (sf : String → SearchOutcome) :
    Except Unit (Option (Video × String) × List String) :=
  resolveQueries m teams sf (combinedSearches m.home m.away teams)

/-- The state of a JSON file on disk, as `loadJSON` distinguishes it:
absent or unreadable makes `fs.readFileSync` throw, unparseable makes
`JSON.parse` throw, and only `content` yields a value. -/
inductive FileState (α : Type) where
  | absent : FileState α
  | unreadable : FileState α
  | unparseable : FileState α
  | content (value : α) : FileState α
deriving DecidableEq

/-- `loadJSON(filePath)`: any thrown error is caught and `null` returned. -/
def loadJSON {α : Type} : FileState α → Option α
  | FileState.content v => some v
  | _ => none

/-- The initialisation of `links` in `crawl` (lines 202-212): a `null`
load result is replaced by a fresh empty store. -/
def initLinks (loaded : Option LinksStore) (nowStr : String) : LinksStore :=
  match loaded with
  | some links => links
  | none => { lastUpdated := nowStr, matchesList := [] }

/-- The end-of-run persistence (lines 343-350): the file is rewritten with
the in-memory store iff at least one new link was found. -/
def finalLinksFile (old : FileState LinksStore) (links : LinksStore)
    (foundCount : Nat) : FileState LinksStore :=
  if foundCount > 0 then FileState.content links else old

/-- JS object assignment `links.matches[key] = value` on the association
list: update in place when the key exists, else append. -/
def setKey (l : List (String × ResolvedLink)) (k : String) (v : ResolvedLink) :
    List (String × ResolvedLink) :=
  if (l.find? (fun p => p.1 == k)).isSome then
    l.map (fun p => if p.1 == k then (k, v) else p)
  else l ++ [(k, v)]

/-- The per-fixture store update (lines 324-340): a winner is written under
the fixture's matchKey; with no winner the store is untouched. -/
def applyFixtureResult (links : LinksStore) (m : MatchToSearch) (nowStr : String)
    (res : Option (Video × String)) : LinksStore :=
  match res with
  | none => links
  | some (video, videoType) =>
    { links with
      matchesList := setKey links.matchesList m.matchKey
        { url := buildVideoUrl video.urn, foundAt := nowStr,
          title := video.title, urn := video.urn, type := videoType } }

/-- The list the search outcome degrades to when no exception is thrown. -/
def resultsOf : SearchOutcome → List Video
  | SearchOutcome.transportFailure => []
  | SearchOutcome.response ok body => if ok then body.getD [] else []

/-- The outcome one query contributes in the query loop. -/
def queryWins (m : MatchToSearch) (teams : TeamsData)
    (sf : String → SearchOutcome) (q : String) : Option (Video × String) :=
  queryOutcome m teams (resultsOf (sf q))

/-- A validated clip falling in the preferred Sport-Clip branch of the
scan. -/
def isStandaloneEligible (m : MatchToSearch) (teams : TeamsData) (v : Video) : Bool :=
  videoAccepted v m teams && (showTitleOf v == "Sport-Clip")

/- Concrete instances used by closed theorems and witnesses. -/

/-- Sample team configuration: two teams with keyword lists and one derby
combination. -/
def sampleTeams : TeamsData :=
  { teams := [("FC Basel", { keywords := some ["Basel"] }),
              ("FC Zuerich", { keywords := some ["Zuerich", "FCZ"] })],
    match_combinations := some [("FC Basel vs FC Zuerich", { keywords := some ["Klassiker"] })] }

/-- Sample fixture entry of matchday 5, played on day 100. -/
def sampleEntry : MatchEntry :=
  { home := "FC Basel", away := "FC Zuerich", date := { day := 100, timeOfDay := 0 },
    searchStart := some 1000 }

/-- The fixture selected for searching. -/
def sampleFixture : MatchToSearch := mkMatchToSearch 5 sampleEntry

/-- A clip that passes every filter and classifies as a standalone
Sport-Clip. -/
def goodVideo : Video :=
  { title := some "FC Basel - FC Zuerich Highlights",
    description := some "Die Partie in voller Laenge",
    showInfo := some { title := some "Sport-Clip" },
    date := some { day := 100, timeOfDay := 7 },
    validFrom := none, publishedDate := none,
    duration := some 95000, urn := "urn:srf:video:good" }

/-- A clip that passes every filter and classifies as a Super League
broadcast segment. -/
def broadcastVideo : Video :=
  { title := some "FC Basel gegen FC Zuerich",
    description := some "Zusammenfassung der Runde",
    showInfo := some { title := some "Super League - Highlights" },
    date := some { day := 101, timeOfDay := 3 },
    validFrom := none, publishedDate := none,
    duration := some 1800000, urn := "urn:srf:video:broadcast" }

/-- A clip whose title carries two blacklisted words yet passes the team,
date and duration checks and classifies as a Sport-Clip. -/
def blacklistedVideo : Video :=
  { title := some "Interview mit dem Trainer des FC Basel",
    description := some "",
    showInfo := some { title := some "Sport-Clip" },
    date := some { day := 100, timeOfDay := 0 },
    validFrom := none, publishedDate := none,
    duration := some 95000, urn := "urn:srf:video:blacklisted" }

/-- A clip below the 90-second minimum. -/
def shortVideo : Video :=
  { goodVideo with duration := some 100, urn := "urn:srf:video:short" }

/-- A clip with no duration field at all. -/
def noDurationVideo : Video :=
  { goodVideo with duration := none, urn := "urn:srf:video:nodur" }

/-- Search function whose first combined query returns the blacklisted
clip. -/
def c1Search : String → SearchOutcome := fun q =>
  if q == "Basel Zuerich" then SearchOutcome.response true (some [blacklistedVideo])
  else SearchOutcome.response true (some [])

/-- Search function whose first combined query transport-fails while the
second would return a winner. -/
def c2Search : String → SearchOutcome := fun q =>
  if q == "Basel Zuerich" then SearchOutcome.transportFailure
  else if q == "Klassiker" then SearchOutcome.response true (some [goodVideo])
  else SearchOutcome.response true (some [])

/-- Search function whose first query answers with a non-success HTTP
status while the second returns a winner. -/
def c2OkSearch : String → SearchOutcome := fun q =>
  if q == "Basel Zuerich" then SearchOutcome.response false (some [goodVideo])
  else if q == "Klassiker" then SearchOutcome.response true (some [goodVideo])
  else SearchOutcome.response true (some [])

/-- Search function for the query-loop witness: the first query yields no
winner, the second yields a standalone winner, the third is never
reached. -/
def c6Search : String → SearchOutcome := fun q =>
  if q == "Basel Zuerich" then SearchOutcome.response true (some [])
  else if q == "Klassiker" then SearchOutcome.response true (some [broadcastVideo, goodVideo])
  else SearchOutcome.response true (some [])

/-- Team configuration whose derby keyword collides with the primary
query pair, forcing a duplicate in `combinedSearches`. -/
def derbyDupTeams : TeamsData :=
  { teams := [], match_combinations := some [("H vs A", { keywords := some ["H A"] })] }

/-- A fixture of matchday 5 whose search-start lies far in the future. -/
def futureEntry : MatchEntry :=
  { home := "FC Zuerich", away := "FC Basel",
    date := { day := 100, timeOfDay := 0 },
    searchStart := some 1000000000000000 }

/-- Matchday 4 of the sample schedule. -/
def md4 : Matchday :=
  { matchday := 4,
    matchesList := [{ home := "FC Zuerich", away := "FC Basel",
                      date := { day := 93, timeOfDay := 0 },
                      searchStart := some 500 }] }

/-- Matchday 5 of the sample schedule, holding the sample fixture and the
future-dated one. -/
def md5 : Matchday :=
  { matchday := 5, matchesList := [sampleEntry, futureEntry] }

/-- A schedule with matchdays 4 and 5. -/
def sampleSpielplan : Spielplan := { matchdays := [md4, md5] }

/-- A link store that has already resolved the sample fixture. -/
def resolvedLinks : LinksStore :=
  { lastUpdated := "2026-01-01",
    matchesList := [("5_FC Basel - FC Zuerich",
      { url := buildVideoUrl "urn:srf:video:good", foundAt := "2026-01-01",
        title := some "FC Basel - FC Zuerich Highlights",
        urn := "urn:srf:video:good", type := "Standalone" })] }

/-- The empty link store a run starts from when links.json is missing or
corrupt. -/
def emptyLinks : LinksStore := { lastUpdated := "now", matchesList := [] }

/- Theorems. -/

/-- Claim C7: the date window accepts a clip iff the day difference between
the clip's date (first present of date/validFrom/publishedDate, truncated
to calendar-day precision) and the fixture date is between 0 and 2
inclusive; a clip with no date field present is rejected. -/
theorem date_window_iff (video : Video) (matchDate : DayDate) :
    isVideoDateValid video matchDate = true ↔
      ∃ d, clipDate video = some d ∧
        0 ≤ d.day - matchDate.day ∧ d.day - matchDate.day ≤ 2 := by
  unfold isVideoDateValid
  cases h : clipDate video with
  | none => simp
  | some d => simp

/-- Claim C9: a clip whose duration is below 90000 ms is never accepted by
the crawl loop's validity conjunction, regardless of every other field;
an absent duration field is treated as 0 and likewise rejected. -/
theorem short_duration_rejected (video : Video) (m : MatchToSearch) (teams : TeamsData) :
    (video.duration.getD 0 < MIN_DURATION_MS → videoAccepted video m teams = false)
    ∧ (video.duration = none → videoAccepted video m teams = false) := by
  have key : isVideoLongEnough video = false → videoAccepted video m teams = false := by
    intro h
    simp [videoAccepted, h]
  constructor
  · intro h
    apply key
    unfold isVideoLongEnough
    simp only [decide_eq_false_iff_not, Nat.not_le]
    omega
  · intro h
    apply key
    unfold isVideoLongEnough
    rw [h]
    rfl

/-- Witness for C9: a 100 ms clip and a clip without duration, otherwise
identical to an accepted clip, are both rejected. -/
theorem short_duration_rejected_witness :
    videoAccepted shortVideo sampleFixture sampleTeams = false
    ∧ videoAccepted noDurationVideo sampleFixture sampleTeams = false :=
  ⟨(short_duration_rejected shortVideo sampleFixture sampleTeams).1 (by decide),
   (short_duration_rejected noDurationVideo sampleFixture sampleTeams).2 (by decide)⟩

/-- Claim C1 (code bug): `isNotBlacklisted` classifies the clip titled
"Interview mit dem Trainer des FC Basel" as blacklisted, yet `crawl`
never invokes that filter: the clip passes the acceptance conjunction and
is resolved as the fixture's standalone match. -/
theorem blacklisted_title_still_accepted :
    isNotBlacklisted blacklistedVideo = false
    ∧ videoAccepted blacklistedVideo sampleFixture sampleTeams = true
    ∧ resolveFixture sampleFixture sampleTeams c1Search
        = Except.ok (some (blacklistedVideo, "Standalone"), ["Basel Zuerich"]) :=
  ⟨rfl, rfl, rfl⟩

/-- Counterexample for C2: the first combined query suffers a transport
failure; instead of degrading to an empty result list and proceeding, the
per-fixture resolution aborts with the propagated error, although the very
next query alone would have produced a standalone winner. -/
theorem transport_failure_aborts :
    resolveFixture sampleFixture sampleTeams c2Search = Except.error ()
    ∧ resolveQueries sampleFixture sampleTeams c2Search ["Klassiker"]
        = Except.ok (some (goodVideo, "Standalone"), ["Klassiker"]) :=
  ⟨rfl, rfl⟩

/-- Claim C2 as amended: a non-success HTTP response degrades to an empty
result list for that query only and resolution proceeds to the remaining
queries; a transport failure is not caught and aborts the resolution. -/
theorem search_failure_semantics (m : MatchToSearch) (teams : TeamsData)
    (sf : String → SearchOutcome) (q : String) (rest : List String) :
    (∀ body, sf q = SearchOutcome.response false body →
      searchVideos (sf q) = Except.ok []
      ∧ resolveQueries m teams sf (q :: rest)
          = Except.map (fun p => (p.1, q :: p.2)) (resolveQueries m teams sf rest))
    ∧ (sf q = SearchOutcome.transportFailure →
      resolveQueries m teams sf (q :: rest) = Except.error ()) := by
  constructor
  · intro body h
    have hs : searchVideos (sf q) = Except.ok [] := by rw [h]; rfl
    refine ⟨hs, ?_⟩
    simp only [resolveQueries, hs, queryOutcome, scanResults]
    cases hrec : resolveQueries m teams sf rest with
    | error e => rfl
    | ok p => rcases p with ⟨res, issued⟩; rfl
  · intro h
    simp only [resolveQueries, h]
    rfl

/-- Witness for the amended C2: a 404 on the first query leaves an empty
result list and the loop still issues the second query; a transport
failure on the first query ends the resolution with an error. -/
theorem search_failure_semantics_witness :
    (searchVideos (c2OkSearch "Basel Zuerich") = Except.ok []
      ∧ resolveQueries sampleFixture sampleTeams c2OkSearch ["Basel Zuerich", "Klassiker"]
          = Except.map (fun p => (p.1, "Basel Zuerich" :: p.2))
              (resolveQueries sampleFixture sampleTeams c2OkSearch ["Klassiker"]))
    ∧ resolveQueries sampleFixture sampleTeams c2Search ["Basel Zuerich", "Klassiker"]
        = Except.error () :=
  ⟨(search_failure_semantics sampleFixture sampleTeams c2OkSearch
      "Basel Zuerich" ["Klassiker"]).1 (some [goodVideo]) (by decide),
   (search_failure_semantics sampleFixture sampleTeams c2Search
      "Basel Zuerich" ["Klassiker"]).2 (by decide)⟩

/-- Counterexample for C4: with a derby keyword equal to the primary
keyword pair, `combinedSearches` contains that query twice — the list is
not duplicate-free. -/
theorem derby_duplicate_query :
    combinedSearches "H" "A" derbyDupTeams = ["H A", "H A", "H", "A"]
    ∧ ¬ (combinedSearches "H" "A" derbyDupTeams).Nodup :=
  ⟨by decide, by decide⟩

/-- Boolean list containment agrees with membership. -/
theorem contains_true_iff (l : List String) (x : String) :
    l.contains x = true ↔ x ∈ l := by
  simp [List.contains, List.elem_eq_mem]

/-- Boolean list containment agrees with non-membership. -/
theorem contains_false_iff (l : List String) (x : String) :
    l.contains x = false ↔ x ∉ l := by
  rw [← Bool.not_eq_true, contains_true_iff]

/-- Folding insert-if-absent over a duplicate-free list appends exactly
the elements not already present. -/
theorem foldl_insert_eq (l : List String) :
    ∀ base : List String, l.Nodup →
      l.foldl (fun acc kw => if acc.contains kw then acc else acc ++ [kw]) base
        = base ++ l.filter (fun kw => !base.contains kw) := by
  induction l with
  | nil => intro base _; simp
  | cons x t ih =>
    intro base hl
    rcases List.nodup_cons.mp hl with ⟨hx, ht⟩
    simp only [List.foldl_cons, List.filter_cons]
    cases hb : base.contains x with
    | true => exact ih base ht
    | false =>
      have hfil : ∀ a ∈ t, (!(base ++ [x]).contains a) = (!base.contains a) := by
        intro a ha
        have hax : a ≠ x := fun e => hx (e ▸ ha)
        simp [List.contains, List.elem_eq_mem, hax]
      have step := ih (base ++ [x]) ht
      rw [List.filter_congr hfil] at step
      exact step.trans (by simp)

/-- Folding insert-if-absent preserves freedom from duplicates. -/
theorem foldl_insert_nodup (l : List String) :
    ∀ base : List String, base.Nodup →
      (l.foldl (fun acc kw => if acc.contains kw then acc else acc ++ [kw]) base).Nodup := by
  induction l with
  | nil => intro base hb; simpa
  | cons x t ih =>
    intro base hb
    simp only [List.foldl_cons]
    cases hbx : base.contains x with
    | true => exact ih base hb
    | false =>
      refine ih (base ++ [x]) ?_
      rw [List.nodup_append]
      refine ⟨hb, List.nodup_singleton x, fun a ha hax => ?_⟩
      have hax2 : a = x := List.mem_singleton.mp hax
      exact (contains_false_iff base x).mp hbx (hax2 ▸ ha)

/-- JavaScript Set construction yields a duplicate-free list. -/
theorem jsSetDedup_nodup (l : List String) : (jsSetDedup l).Nodup :=
  foldl_insert_nodup l [] List.nodup_nil

/-- Claim C4 as amended: `combinedSearches` is the primary keyword pair,
then every derby keyword appended unconditionally (so a derby keyword
already present repeats), then the first-occurrence union of home and away
keywords with already-present entries skipped; whenever the primary query
and the derby keywords are mutually distinct, the whole list is
duplicate-free. -/
theorem combined_searches_structure (home away : String) (teams : TeamsData) :
    combinedSearches home away teams
      = ((getAllKeywords home teams).headD "" ++ " " ++ (getAllKeywords away teams).headD "")
          :: getDerbyKeywords home away teams
          ++ (jsSetDedup (getAllKeywords home teams ++ getAllKeywords away teams)).filter
              (fun kw =>
                !((((getAllKeywords home teams).headD "" ++ " " ++ (getAllKeywords away teams).headD "")
                    :: getDerbyKeywords home away teams).contains kw))
    ∧ ((((getAllKeywords home teams).headD "" ++ " " ++ (getAllKeywords away teams).headD "")
          :: getDerbyKeywords home away teams).Nodup →
        (combinedSearches home away teams).Nodup) := by
  have heq : combinedSearches home away teams
      = (((getAllKeywords home teams).headD "" ++ " " ++ (getAllKeywords away teams).headD "")
          :: getDerbyKeywords home away teams)
        ++ (jsSetDedup (getAllKeywords home teams ++ getAllKeywords away teams)).filter
            (fun kw =>
              !((((getAllKeywords home teams).headD "" ++ " " ++ (getAllKeywords away teams).headD "")
                  :: getDerbyKeywords home away teams).contains kw)) := by
    unfold combinedSearches
    exact foldl_insert_eq _ _ (jsSetDedup_nodup _)
  constructor
  · simpa using heq
  · intro hbase
    rw [heq, List.nodup_append]
    refine ⟨hbase, (jsSetDedup_nodup _).filter _, ?_⟩
    intro a ha hafil
    have := (List.mem_filter.mp hafil).2
    simp only [Bool.not_eq_true'] at this
    exact (contains_false_iff _ _).mp this ha

/-- Witness for the amended C4: on the sample configuration the query list
is the primary pair, the derby keyword, and the three team keywords, with
no duplicates. -/
theorem combined_searches_structure_witness :
    combinedSearches "FC Basel" "FC Zuerich" sampleTeams
      = ["Basel Zuerich", "Klassiker", "Basel", "Zuerich", "FCZ"]
    ∧ (combinedSearches "FC Basel" "FC Zuerich" sampleTeams).Nodup :=
  ⟨by decide,
   (combined_searches_structure "FC Basel" "FC Zuerich" sampleTeams).2 (by decide)⟩

/-- During a scan that has not yet found a standalone match, the first
clip that is accepted and carries the Sport-Clip show title becomes the
standalone result, whatever broadcast fallback is pending. -/
theorem scan_first_standalone (m : MatchToSearch) (teams : TeamsData) :
    ∀ (results : List Video) (dm : Option Video) (v : Video),
      results.find? (isStandaloneEligible m teams) = some v →
      (scanResults m teams results none dm).1 = some v := by
  intro results
  induction results with
  | nil => intro dm v h; simp at h
  | cons a rest ih =>
    intro dm v h
    cases hp : isStandaloneEligible m teams a with
    | true =>
      rw [List.find?_cons_of_pos _ hp] at h
      have hv : a = v := Option.some.inj h
      subst hv
      have hva : videoAccepted a m teams = true :=
        ((Bool.and_eq_true _ _).mp hp).1
      have hst : (showTitleOf a == "Sport-Clip") = true :=
        ((Bool.and_eq_true _ _).mp hp).2
      simp [scanResults, hva, hst]
    | false =>
      rw [List.find?_cons_of_neg _ (by simp [hp])] at h
      cases hva : videoAccepted a m teams with
      | false =>
        simp only [scanResults, hva]
        exact ih dm v h
      | true =>
        have hst : (showTitleOf a == "Sport-Clip") = false := by
          rcases Bool.and_eq_false_iff.mp (hp ▸ rfl :
            (videoAccepted a m teams && (showTitleOf a == "Sport-Clip")) = false) with h1 | h1
          · rw [hva] at h1; cases h1
          · exact h1
        cases hsl : (strIncludes (showTitleOf a) "Super League" && dm.isNone) with
        | true =>
          simp only [scanResults, hva, hst]
          rw [hsl]
          exact ih (some a) v h
        | false =>
          simp only [scanResults, hva, hst]
          rw [hsl]
          exact ih dm v h

/-- Claim C5: if one query's result list contains any accepted Sport-Clip
clip, the scan returns the first such clip with type Standalone — a
broadcast clip found earlier is kept only as a fallback and a later
standalone clip overrides it, and the scan stops at the first standalone
clip. -/
theorem standalone_preferred (m : MatchToSearch) (teams : TeamsData)
    (results : List Video) (v : Video)
    (h : results.find? (isStandaloneEligible m teams) = some v) :
    queryOutcome m teams results = some (v, "Standalone") := by
  have h1 := scan_first_standalone m teams results none v h
  unfold queryOutcome
  rcases hscan : scanResults m teams results none none with ⟨sm, dm⟩
  rw [hscan] at h1
  simp only at h1
  subst h1
  rfl

/-- Witness for C5: the sample result list holds an accepted broadcast
clip first and an accepted Sport-Clip second; the scan returns the
Sport-Clip with type Standalone. -/
theorem standalone_preferred_witness :
    videoAccepted broadcastVideo sampleFixture sampleTeams = true
    ∧ strIncludes (showTitleOf broadcastVideo) "Super League" = true
    ∧ queryOutcome sampleFixture sampleTeams [broadcastVideo, goodVideo]
        = some (goodVideo, "Standalone") :=
  ⟨rfl, rfl,
   standalone_preferred sampleFixture sampleTeams [broadcastVideo, goodVideo]
     goodVideo (by decide)⟩

/-- A non-throwing search outcome yields exactly its degraded result
list. -/
theorem searchVideos_ok (o : SearchOutcome)
    (h : o ≠ SearchOutcome.transportFailure) :
    searchVideos o = Except.ok (resultsOf o) := by
  cases o with
  | transportFailure => exact absurd rfl h
  | response ok body => cases ok <;> rfl

/-- Claim C6: when no query throws, the query loop issues exactly the
winnerless prefix of the query list plus the first winning query, returns
that query's winner, and returns `none` with every query issued when no
query wins. -/
theorem query_loop_stops (m : MatchToSearch) (teams : TeamsData)
    (sf : String → SearchOutcome) :
    ∀ queries : List String,
      (∀ q ∈ queries, sf q ≠ SearchOutcome.transportFailure) →
      resolveQueries m teams sf queries =
        Except.ok
          (match queries.dropWhile (fun q => (queryWins m teams sf q).isNone) with
           | [] => (none, queries)
           | q :: _ =>
             (queryWins m teams sf q,
              queries.takeWhile (fun q => (queryWins m teams sf q).isNone) ++ [q])) := by
  intro queries
  induction queries with
  | nil => intro _; rfl
  | cons q rest ih =>
    intro hnf
    have hq : sf q ≠ SearchOutcome.transportFailure := hnf q (List.mem_cons_self q rest)
    have hrest : ∀ x ∈ rest, sf x ≠ SearchOutcome.transportFailure :=
      fun x hx => hnf x (List.mem_cons_of_mem q hx)
    have hsv : searchVideos (sf q) = Except.ok (resultsOf (sf q)) := searchVideos_ok (sf q) hq
    simp only [resolveQueries, hsv]
    cases hw : queryOutcome m teams (resultsOf (sf q)) with
    | some r =>
      have hwq : queryWins m teams sf q = some r := hw
      have hp : (queryWins m teams sf q).isNone = false := by
        simp [queryWins, hw]
      rw [List.dropWhile_cons, List.takeWhile_cons, hp]
      show Except.ok (some r, [q]) = Except.ok (queryWins m teams sf q, [q])
      rw [hwq]
    | none =>
      have hp : (queryWins m teams sf q).isNone = true := by
        simp [queryWins, hw]
      rw [ih hrest, List.dropWhile_cons, List.takeWhile_cons, hp]
      simp only [if_pos rfl]
      cases hd : rest.dropWhile (fun x => (queryWins m teams sf x).isNone) with
      | nil => rfl
      | cons q2 t => rfl

/-- Witness for C6: the first query yields no winner, the second yields a
standalone winner, and the loop returns it having issued exactly the
first two of the three queries. -/
theorem query_loop_stops_witness :
    resolveQueries sampleFixture sampleTeams c6Search
        ["Basel Zuerich", "Klassiker", "Basel"]
      = Except.ok (some (goodVideo, "Standalone"), ["Basel Zuerich", "Klassiker"]) :=
  (query_loop_stops sampleFixture sampleTeams c6Search
    ["Basel Zuerich", "Klassiker", "Basel"] (by decide)).trans rfl

/-- Whatever `selectMatch` returns is the pushed record of its match, and
it is only returned when the match is not yet resolved. -/
theorem selectMatch_some (links : LinksStore) (tm : Option Int) (now : Int)
    (mdNum : Int) (m : MatchEntry) (x : MatchToSearch)
    (h : selectMatch links tm now mdNum m = some x) :
    x = mkMatchToSearch mdNum m
      ∧ linkResolved links (matchKeyOf mdNum m) = false := by
  simp only [selectMatch] at h
  split at h
  next hres => cases h
  next hres =>
    have hres2 : linkResolved links (matchKeyOf mdNum m) = false := by
      simpa using hres
    refine ⟨?_, hres2⟩
    split at h
    next => exact (Option.some.inj h).symm
    next =>
      split at h
      next => cases h
      next searchTime heq =>
        split at h
        next => exact (Option.some.inj h).symm
        next => cases h

/-- Membership in the candidate set, unfolded to the matchday, the match,
the test-mode guard and the per-match selection. -/
theorem mem_getMatchesToSearch_iff (sp : Spielplan) (links : LinksStore)
    (tm : Option Int) (now : Int) (x : MatchToSearch) :
    x ∈ getMatchesToSearch sp links tm now ↔
      ∃ md ∈ sp.matchdays, ∃ m ∈ md.matchesList,
        (tm = none ∨ tm = some md.matchday)
        ∧ selectMatch links tm now md.matchday m = some x := by
  cases tm with
  | none =>
    simp only [getMatchesToSearch]
    rw [List.mem_flatMap]
    constructor
    · rintro ⟨md, hmd, hx⟩
      rw [List.mem_filterMap] at hx
      obtain ⟨m, hm, hsel⟩ := hx
      exact ⟨md, hmd, m, hm, Or.inl (by trivial), hsel⟩
    · rintro ⟨md, hmd, m, hm, _, hsel⟩
      exact ⟨md, hmd, List.mem_filterMap.mpr ⟨m, hm, hsel⟩⟩
  | some t =>
    simp only [getMatchesToSearch]
    rw [List.mem_flatMap]
    constructor
    · rintro ⟨md, hmd, hx⟩
      by_cases hmdt : md.matchday = t
      · rw [if_pos (by simp [hmdt])] at hx
        rw [List.mem_filterMap] at hx
        obtain ⟨m, hm, hsel⟩ := hx
        exact ⟨md, hmd, m, hm, Or.inr (by rw [hmdt]), hsel⟩
      · rw [if_neg (by simp [hmdt])] at hx
        cases hx
    · rintro ⟨md, hmd, m, hm, hguard, hsel⟩
      refine ⟨md, hmd, ?_⟩
      have ht : md.matchday = t := by
        rcases hguard with h | h
        · cases h
        · exact (Option.some.inj h).symm
      rw [if_pos (by simp [ht])]
      exact List.mem_filterMap.mpr ⟨m, hm, hsel⟩

/-- Claim C3: a fixture whose matchKey already carries a link with a
non-empty url never appears in the candidate set, in normal mode or in
test mode. -/
theorem resolved_fixture_not_searched (sp : Spielplan) (links : LinksStore)
    (tm : Option Int) (now : Int) (mdNum : Int) (m : MatchEntry)
    (h : linkResolved links (matchKeyOf mdNum m) = true) :
    mkMatchToSearch mdNum m ∉ getMatchesToSearch sp links tm now := by
  intro hmem
  rw [mem_getMatchesToSearch_iff] at hmem
  obtain ⟨md, hmd, m2, hm2, _, hsel⟩ := hmem
  obtain ⟨hx, hres⟩ := selectMatch_some links tm now md.matchday m2 _ hsel
  have hkey : matchKeyOf mdNum m = matchKeyOf md.matchday m2 := by
    simpa [mkMatchToSearch] using congrArg MatchToSearch.matchKey hx
  rw [hkey] at h
  rw [h] at hres
  cases hres

/-- Witness for C3: the already-resolved sample fixture is absent from the
candidate set of a test-mode run over its matchday. -/
theorem resolved_fixture_not_searched_witness :
    mkMatchToSearch 5 sampleEntry
      ∉ getMatchesToSearch sampleSpielplan resolvedLinks (some 5) 0 :=
  resolved_fixture_not_searched sampleSpielplan resolvedLinks (some 5) 0 5
    sampleEntry (by decide)

/-- Claim C8: in test mode for matchday `t`, every candidate belongs to
matchday `t`, and a scheduled fixture is a candidate exactly when its
matchday is `t` and it is not yet resolved — its search-start timestamp
and the current time are irrelevant. -/
theorem test_mode_candidates (sp : Spielplan) (links : LinksStore)
    (t : Int) (now : Int) :
    (∀ x ∈ getMatchesToSearch sp links (some t) now, x.matchday = t)
    ∧ ∀ md ∈ sp.matchdays, ∀ m ∈ md.matchesList,
        (mkMatchToSearch md.matchday m ∈ getMatchesToSearch sp links (some t) now
          ↔ (md.matchday = t
             ∧ linkResolved links (matchKeyOf md.matchday m) = false)) := by
  constructor
  · intro x hx
    rw [mem_getMatchesToSearch_iff] at hx
    obtain ⟨md, hmd, m, hm, hguard, hsel⟩ := hx
    obtain ⟨hx2, _⟩ := selectMatch_some links (some t) now md.matchday m x hsel
    have ht : md.matchday = t := by
      rcases hguard with h | h
      · cases h
      · exact (Option.some.inj h).symm
    rw [hx2]
    simpa [mkMatchToSearch] using ht
  · intro md hmd m hm
    constructor
    · intro hmem
      rw [mem_getMatchesToSearch_iff] at hmem
      obtain ⟨md2, hmd2, m2, hm2, hguard, hsel⟩ := hmem
      obtain ⟨hx2, hres⟩ := selectMatch_some links (some t) now md2.matchday m2 _ hsel
      have hkey : matchKeyOf md.matchday m = matchKeyOf md2.matchday m2 := by
        simpa [mkMatchToSearch] using congrArg MatchToSearch.matchKey hx2
      have hmdeq : md.matchday = md2.matchday := by
        simpa [mkMatchToSearch] using congrArg MatchToSearch.matchday hx2
      have ht : md2.matchday = t := by
        rcases hguard with h | h
        · cases h
        · exact (Option.some.inj h).symm
      exact ⟨hmdeq.trans ht, hkey ▸ hres⟩
    · rintro ⟨ht, hres⟩
      rw [mem_getMatchesToSearch_iff]
      refine ⟨md, hmd, m, hm, Or.inr (by rw [ht]), ?_⟩
      simp only [selectMatch]
      rw [hres]
      rfl

/-- Witness for C8: with the fresh store, the matchday-5 fixture whose
search-start lies far in the future is in the test-mode candidate set for
matchday 5. -/
theorem test_mode_candidates_witness :
    mkMatchToSearch md5.matchday futureEntry
      ∈ getMatchesToSearch sampleSpielplan emptyLinks (some 5) 0 :=
  (((test_mode_candidates sampleSpielplan emptyLinks 5 0).2 md5 (by decide)
      futureEntry (by decide)).mpr (by decide))

/-- Claim C10: an unreadable or unparseable links file loads as `null`
exactly like an absent one, so the run proceeds on a fresh empty store;
every scheduled fixture — previously resolved or not — then re-enters the
candidate set of a test-mode run over its matchday, and as soon as any
fixture resolves, the end-of-run save replaces the file's old contents
with the fresh store. -/
theorem corrupt_links_treated_as_absent (old : FileState LinksStore)
    (h : old = FileState.unreadable ∨ old = FileState.unparseable)
    (s : String) (sp : Spielplan) (now : Int) :
    initLinks (loadJSON old) s = initLinks (loadJSON FileState.absent) s
    ∧ (initLinks (loadJSON old) s).matchesList = []
    ∧ (∀ md ∈ sp.matchdays, ∀ m ∈ md.matchesList,
        mkMatchToSearch md.matchday m
          ∈ getMatchesToSearch sp (initLinks (loadJSON old) s) (some md.matchday) now)
    ∧ (∀ (links : LinksStore) (foundCount : Nat), 0 < foundCount →
        finalLinksFile old links foundCount = FileState.content links) := by
  have hload : loadJSON old = (none : Option LinksStore) := by
    rcases h with h | h <;> rw [h] <;> rfl
  refine ⟨by rw [hload]; rfl, by rw [hload]; rfl, ?_, ?_⟩
  · intro md hmd m hm
    rw [mem_getMatchesToSearch_iff]
    refine ⟨md, hmd, m, hm, Or.inr rfl, ?_⟩
    simp only [selectMatch]
    have hres : linkResolved (initLinks (loadJSON old) s) (matchKeyOf md.matchday m)
        = false := by
      rw [hload]
      rfl
    rw [hres]
    rfl
  · intro links foundCount hfc
    unfold finalLinksFile
    rw [if_pos hfc]

/-- Witness for C10: a run over an unreadable links file starts from the
empty store, the previously-resolved sample fixture re-enters the
test-mode candidate set, and one resolution makes the save replace the
file. -/
theorem corrupt_links_treated_as_absent_witness :
    (initLinks (loadJSON (FileState.unreadable : FileState LinksStore)) "now").matchesList = []
    ∧ mkMatchToSearch md5.matchday sampleEntry
        ∈ getMatchesToSearch sampleSpielplan
            (initLinks (loadJSON (FileState.unreadable : FileState LinksStore)) "now")
            (some md5.matchday) 0
    ∧ finalLinksFile FileState.unreadable resolvedLinks 1
        = FileState.content resolvedLinks :=
  ⟨(corrupt_links_treated_as_absent FileState.unreadable (Or.inl rfl) "now"
      sampleSpielplan 0).2.1,
   (corrupt_links_treated_as_absent FileState.unreadable (Or.inl rfl) "now"
      sampleSpielplan 0).2.2.1 md5 (by decide) sampleEntry (by decide),
   (corrupt_links_treated_as_absent FileState.unreadable (Or.inl rfl) "now"
      sampleSpielplan 0).2.2.2 resolvedLinks 1 (by decide)⟩

end Crawler
